import Mathlib

/-
Verification of the query-translation core of the GA4 connector
(hasura/promptql-GA4): a shallow embedding of src/filters.ts and
src/query.ts, followed by theorems about the embedded functions.

JavaScript idioms are modelled explicitly: `x || y` on strings treats the
empty string as falsy (jsStringOr / jsStringOrNull), `x || 10000` on the
limit treats 0 as falsy (jsOrDefaultNat), `String.replace(pat, "")`
replaces the first occurrence (jsReplaceFirst), `split("/")` is
jsSplitOnSlash, `padStart(2, "0")` is jsPadStart2, and `Number(v)` is
modelled on its integer fragment (jsNumber).  Records built by key
insertion (the requested-dimension and requested-metric maps, and each
output row) are modelled as association lists in insertion order, which
matches JavaScript object semantics for the distinct keys of a JSON
object.  The external report API is passed in as a function argument and
every issued request is recorded in a trace list, so "no outbound call"
is the trace being empty.
-/

namespace GA4Connector

/-! ### Data model of src/filters.ts -/

/-- A literal scalar appearing in a comparison value (the JSON value the
NDC request carries).  JavaScript null/undefined scalars are modelled by
the surrounding Option. -/
inductive Scalar where
  | str (s : String)
  | num (n : Int)
  | boolean (b : Bool)

/-- ComparisonTarget of the NDC SDK: the code reads only the tag and, for
the two column variants, the name. -/
inductive ComparisonTarget where
  | column (name : String)
  | root_collection_column (name : String)
  | otherTarget

/-- ComparisonValue of the NDC SDK.  A scalar carries an optional Scalar:
none models a null/undefined literal, which extractComparisonValue turns
into a failure. -/
inductive ComparisonValue where
  | scalar (value : Option Scalar)
  | variable_ (name : String)
  | columnRef
  | otherValue

/-- Expression of the NDC SDK, restricted to the fields the parser reads.
The `not` and `exists_` children are carried (the NDC AST has them) but
the parser never descends into them. -/
inductive Expression where
  | and (expressions : List Expression)
  | or (expressions : List Expression)
  | not (expression : Expression)
  | binary_comparison_operator (column : ComparisonTarget) (operator : String)
      (value : ComparisonValue)
  | exists_ (predicate : Expression)
  | unary_comparison_operator (column : ComparisonTarget) (operator : String)
  | unknown (tag : String)

/-- ParsedFilter of src/filters.ts. -/
structure ParsedFilter where
  columnName : String
  operator : String
  value : Scalar
  isDimension : Bool
  isMetric : Bool

/-- FilterParseResult of src/filters.ts. -/
structure FilterParseResult where
  dimensionFilters : List ParsedFilter
  metricFilters : List ParsedFilter
  errors : List String

/-- The empty parse result the parser starts from. -/
def emptyParseResult : FilterParseResult :=
  { dimensionFilters := [], metricFilters := [], errors := [] }

/-- result.errors.push(msg). -/
def addError (result : FilterParseResult) (msg : String) : FilterParseResult :=
  { result with errors := result.errors ++ [msg] }

/-! ### Supported operators (SUPPORTED_OPERATORS and validateFilterSupport) -/

/-- SUPPORTED_OPERATORS.EQUAL. -/
def SUPPORTED_OPERATORS_EQUAL : String := "_eq"

/-- Object.values(SUPPORTED_OPERATORS): the only supported operator is _eq. -/
def supportedOperatorValues : List String := [SUPPORTED_OPERATORS_EQUAL]

/-- isSupportedOperator of src/filters.ts. -/
def isSupportedOperator (operator : String) : Bool :=
  supportedOperatorValues.contains operator

/-- Return shape of validateFilterSupport. -/
structure ValidationResult where
  isSupported : Bool
  error : Option String

/-- validateFilterSupport of src/filters.ts. -/
def validateFilterSupport (operator : String) : ValidationResult :=
  if !isSupportedOperator operator then
    { isSupported := false
      error := some ("Operator '" ++ operator ++ "' is not supported. Only '" ++
        SUPPORTED_OPERATORS_EQUAL ++ "' (equal) is currently supported.") }
  else
    { isSupported := true, error := none }

/-! ### JavaScript string helpers -/

/-- Does l start with prefix p (element-wise)? -/
def listStartsWith : List Char → List Char → Bool
  | _, [] => true
  | [], _ :: _ => false
  | c :: cs, p :: ps => c == p && listStartsWith cs ps

/-- JavaScript String.replace(pattern, replacement) over char lists:
replaces the first occurrence of the pattern, if any. -/
def jsReplaceFirstAux (pattern replacement : List Char) : List Char → List Char
  | [] => if pattern.isEmpty then replacement else []
  | c :: cs =>
      if listStartsWith (c :: cs) pattern then
        replacement ++ (c :: cs).drop pattern.length
      else
        c :: jsReplaceFirstAux pattern replacement cs

/-- JavaScript s.replace(pattern, replacement) for string patterns. -/
def jsReplaceFirst (s pattern replacement : String) : String :=
  String.mk (jsReplaceFirstAux pattern.data replacement.data s.data)

/-- JavaScript s.startsWith(pre). -/
def jsStartsWith (s pre : String) : Bool :=
  listStartsWith s.data pre.data


/-! ### Column and value extraction -/

/-- Return shape of extractColumnInfo. -/
structure ColumnInfo where
  name : String
  isDimension : Bool
  isMetric : Bool

/-- extractColumnInfo of src/filters.ts: classification by name prefix. -/
def extractColumnInfo (target : ComparisonTarget) : Option ColumnInfo :=
  match target with
  | .column columnName =>
      some { name := columnName,
             isDimension := jsStartsWith columnName "dimension_",
             isMetric := jsStartsWith columnName "metric_" }
  | .root_collection_column columnName =>
      some { name := columnName,
             isDimension := jsStartsWith columnName "dimension_",
             isMetric := jsStartsWith columnName "metric_" }
  | .otherTarget => none

/-- extractComparisonValue of src/filters.ts: only literal scalars are
supported; variables and column references resolve to none, as does a
null scalar (the caller checks for null/undefined). -/
def extractComparisonValue (value : ComparisonValue) : Option Scalar :=
  match value with
  | .scalar v => v
  | .variable_ _ => none
  | .columnRef => none
  | .otherValue => none

/-- JavaScript typeof of a scalar. -/
def typeofScalar : Scalar → String
  | .str _ => "string"
  | .num _ => "number"
  | .boolean _ => "boolean"

/-- JavaScript template-literal rendering of a scalar. -/
def scalarToString : Scalar → String
  | .str s => s
  | .num n => toString n
  | .boolean b => if b then "true" else "false"

/-- Digits of a char list read as a base-10 natural. -/
def digitsToNat (l : List Char) : Nat :=
  l.foldl (fun n c => 10 * n + (c.toNat - 48)) 0

/-- Integer fragment of JavaScript Number(string): "" is 0, an optional
minus sign followed by digits parses, anything else is NaN (none). -/
def jsStringToNumber (s : String) : Option Int :=
  match s.data with
  | [] => some 0
  | '-' :: rest =>
      if !rest.isEmpty && rest.all Char.isDigit then some (-(digitsToNat rest : Int))
      else none
  | l =>
      if l.all Char.isDigit then some (digitsToNat l : Int) else none

/-- Integer fragment of JavaScript Number(v): numbers pass through,
strings parse, booleans coerce to 0/1. -/
def jsNumber : Scalar → Option Int
  | .num n => some n
  | .str s => jsStringToNumber s
  | .boolean b => some (if b then 1 else 0)

/-! ### GA4 filter structures -/

/-- stringFilter payload of a GA4 IFilter. -/
structure StringFilter where
  value : String
  matchType : String

/-- NumericValue payload ({doubleValue}) of a GA4 numericFilter. -/
structure NumericValue where
  doubleValue : Int

/-- numericFilter payload of a GA4 IFilter. -/
structure NumericFilter where
  operation : String
  value : NumericValue

/-- GA4 IFilter: a field name plus one of the filter payloads (the code
only ever sets stringFilter or numericFilter). -/
structure GA4Filter where
  fieldName : String
  stringFilter : Option StringFilter := none
  numericFilter : Option NumericFilter := none

/-- GA4 IFilterExpression, restricted to the variants the code builds:
a single leaf filter or an AND-group. -/
inductive GA4FilterExpression where
  | filter (f : GA4Filter)
  | andGroup (expressions : List GA4FilterExpression)

/-- createGA4DimensionFilter of src/filters.ts: only string values with
EXACT matching are supported; a non-string value is an error (the source
pushes the message and returns null). -/
def createGA4DimensionFilter (filter : ParsedFilter) : Except String GA4Filter :=
  let fieldName := jsReplaceFirst filter.columnName "dimension_" ""
  match filter.value with
  | .str s =>
      .ok { fieldName := fieldName,
            stringFilter := some { value := s, matchType := "EXACT" } }
  | v =>
      .error ("Dimension filter value must be a string, got: " ++ typeofScalar v)

/-- createGA4MetricFilter of src/filters.ts: the value is coerced with
Number(); NaN is an error; the operation is always EQUAL in this version. -/
def createGA4MetricFilter (filter : ParsedFilter) : Except String GA4Filter :=
  let fieldName := jsReplaceFirst filter.columnName "metric_" ""
  match jsNumber filter.value with
  | none =>
      .error ("Metric filter value must be numeric, got: " ++ scalarToString filter.value)
  | some numericValue =>
      .ok { fieldName := fieldName,
            numericFilter := some { operation := "EQUAL",
                                    value := { doubleValue := numericValue } } }

/-! ### The expression parser (parsePredicateFilters and helpers) -/

/-- The warning-class error the parser records for every or node. -/
def orWarningMessage : String :=
  "OR expressions are not fully supported yet - processing individual conditions"

/-- parseBinaryComparison of src/filters.ts: validate the operator,
extract column and value, and append the parsed filter to the matching
list (or an error). -/
def parseBinaryComparison (column : ComparisonTarget) (operator : String)
    (value : ComparisonValue) (result : FilterParseResult) : FilterParseResult :=
  let validation := validateFilterSupport operator
  if !validation.isSupported then
    addError result (validation.error.getD ("Unsupported operator: " ++ operator))
  else
    match extractColumnInfo column with
    | none => addError result "Failed to extract column information from comparison target"
    | some columnInfo =>
      match extractComparisonValue value with
      | none => addError result "Failed to extract value from comparison"
      | some v =>
        let filter : ParsedFilter :=
          { columnName := columnInfo.name, operator := operator, value := v,
            isDimension := columnInfo.isDimension, isMetric := columnInfo.isMetric }
        if filter.isDimension then
          { result with dimensionFilters := result.dimensionFilters ++ [filter] }
        else if filter.isMetric then
          { result with metricFilters := result.metricFilters ++ [filter] }
        else
          addError result ("Column " ++ columnInfo.name ++ " is neither a dimension nor a metric")

mutual

/-- parseExpressionRecursive of src/filters.ts: the recursive walk of the
expression tree, threading the accumulating result. -/
def parseExpressionRecursive (expression : Expression) (result : FilterParseResult) :
    FilterParseResult :=
  match expression with
  | .and expressions => parseExpressionList expressions result
  | .or expressions => parseExpressionList expressions (addError result orWarningMessage)
  | .not _ => addError result "NOT expressions are not supported in GA4 filters"
  | .binary_comparison_operator column operator value =>
      parseBinaryComparison column operator value result
  | .exists_ _ => addError result "EXISTS expressions are not supported in GA4 filters"
  | .unary_comparison_operator _ _ =>
      addError result "Unary comparison operators are not supported in GA4 filters"
  | .unknown tag => addError result ("Unknown expression type: " ++ tag)

/-- expressions.forEach(expr => parseExpressionRecursive(expr, result)). -/
def parseExpressionList (expressions : List Expression) (result : FilterParseResult) :
    FilterParseResult :=
  match expressions with
  | [] => result
  | e :: rest => parseExpressionList rest (parseExpressionRecursive e result)

end

/-- parsePredicateFilters of src/filters.ts: an absent predicate yields
the empty result (the try/catch is irrelevant here as the model throws
nothing). -/
def parsePredicateFilters (predicate : Option Expression) : FilterParseResult :=
  match predicate with
  | none => emptyParseResult
  | some p => parseExpressionRecursive p emptyParseResult

/-! ### The filter builder (buildGA4Filters and helpers) -/

/-- Body of the conversion loop of buildDimensionFilter: a success is
pushed onto the expression list, a failure onto the error list. -/
def dimensionFilterStep (acc : List GA4Filter × List String) (filter : ParsedFilter) :
    List GA4Filter × List String :=
  match createGA4DimensionFilter filter with
  | .ok ga4Filter => (acc.1 ++ [ga4Filter], acc.2)
  | .error e => (acc.1, acc.2 ++ [e])

/-- Body of the conversion loop of buildMetricFilter. -/
def metricFilterStep (acc : List GA4Filter × List String) (filter : ParsedFilter) :
    List GA4Filter × List String :=
  match createGA4MetricFilter filter with
  | .ok ga4Filter => (acc.1 ++ [ga4Filter], acc.2)
  | .error e => (acc.1, acc.2 ++ [e])

/-- buildDimensionFilter of src/filters.ts: the existing (mandatory)
leaf, when the expression is a leaf, is pushed first; then each parsed
filter converts or errors; zero leaves give no tree, one leaf a bare
leaf, several an AND-group. -/
def buildDimensionFilter (filters : List ParsedFilter)
    (existingFilter : Option GA4FilterExpression) (errors : List String) :
    Option GA4FilterExpression × List String :=
  let start : List GA4Filter :=
    match existingFilter with
    | some (.filter f) => [f]
    | _ => []
  let res := filters.foldl dimensionFilterStep (start, errors)
  match res.1 with
  | [] => (none, res.2)
  | [single] => (some (.filter single), res.2)
  | filterExpressions =>
      (some (.andGroup (filterExpressions.map GA4FilterExpression.filter)), res.2)

/-- buildMetricFilter of src/filters.ts. -/
def buildMetricFilter (filters : List ParsedFilter) (errors : List String) :
    Option GA4FilterExpression × List String :=
  let res := filters.foldl metricFilterStep ([], errors)
  match res.1 with
  | [] => (none, res.2)
  | [single] => (some (.filter single), res.2)
  | filterExpressions =>
      (some (.andGroup (filterExpressions.map GA4FilterExpression.filter)), res.2)

/-- Return shape of buildGA4Filters. -/
structure BuildFiltersResult where
  dimensionFilter : Option GA4FilterExpression
  metricFilter : Option GA4FilterExpression
  errors : List String

/-- buildGA4Filters of src/filters.ts: starts from the parse errors,
builds the dimension tree (falling back to the existing mandatory filter
when no dimension filters were parsed) and the metric tree. -/
def buildGA4Filters (parseResult : FilterParseResult)
    (existingDimensionFilter : Option GA4FilterExpression) : BuildFiltersResult :=
  let errors0 := parseResult.errors
  let dimRes :=
    if !parseResult.dimensionFilters.isEmpty then
      buildDimensionFilter parseResult.dimensionFilters existingDimensionFilter errors0
    else
      (existingDimensionFilter, errors0)
  let metRes :=
    if !parseResult.metricFilters.isEmpty then
      buildMetricFilter parseResult.metricFilters dimRes.2
    else
      (none, dimRes.2)
  { dimensionFilter := dimRes.1, metricFilter := metRes.1, errors := metRes.2 }

/-- The dimension leaves successfully derived from the parsed filters, in
order (the successes of createGA4DimensionFilter). -/
def derivedDimensionLeaves (filters : List ParsedFilter) : List GA4Filter :=
  filters.filterMap (fun f => (createGA4DimensionFilter f).toOption)

/-- The errors of the failed dimension-leaf conversions, in order. -/
def dimensionLeafErrors (filters : List ParsedFilter) : List String :=
  filters.filterMap (fun f =>
    match createGA4DimensionFilter f with
    | .error e => some e
    | .ok _ => none)

/-! ### Errors of src/query.ts -/

/-- The diagnostic payload of the no-data error (second argument of
UnprocessableContent at the empty-response check). -/
structure ErrorDetails where
  requested_dimensions : List String
  requested_metrics : List String
  suggestion : String

/-- The two error classes runQuery raises: UnprocessableContent (with an
optional diagnostic payload) and BadGateway. -/
inductive QueryError where
  | unprocessableContent (message : String) (details : Option ErrorDetails)
  | badGateway (message : String)

/-! ### Date conversion (convertDateFormat of src/query.ts) -/

/-- Single-character matcher: is the char exactly a? -/
def charIs (a : Char) (c : Char) : Bool := c == a

/-- Match a char list against a list of single-char matchers, position by
position, requiring equal length (an anchored regex of fixed length). -/
def matchSeq : List (Char → Bool) → List Char → Bool
  | [], [] => true
  | p :: ps, c :: cs => p c && matchSeq ps cs
  | _, _ => false

/-- The anchored regex d d d d - d d - d d (YYYY-MM-DD). -/
def datePattern : List (Char → Bool) :=
  [Char.isDigit, Char.isDigit, Char.isDigit, Char.isDigit, charIs '-',
   Char.isDigit, Char.isDigit, charIs '-', Char.isDigit, Char.isDigit]

/-- The anchored regex for YYYY-MM-DDTHH:MM:SS. -/
def dateTimePattern : List (Char → Bool) :=
  datePattern ++
  [charIs 'T', Char.isDigit, Char.isDigit, charIs ':', Char.isDigit, Char.isDigit,
   charIs ':', Char.isDigit, Char.isDigit]

/-- Test of the first date regex. -/
def isYMD (s : String) : Bool := matchSeq datePattern s.data

/-- Test of the second date regex. -/
def isYMDTime (s : String) : Bool := matchSeq dateTimePattern s.data

/-- All chars are decimal digits. -/
def allDigits (l : List Char) : Bool := l.all Char.isDigit

/-- One or two decimal digits. -/
def digitRun1or2 (l : List Char) : Bool :=
  (l.length == 1 || l.length == 2) && allDigits l

/-- Exactly four decimal digits. -/
def digitRun4 (l : List Char) : Bool := l.length == 4 && allDigits l

/-- JavaScript s.split("/") over char lists. -/
def jsSplitOnSlash : List Char → List (List Char)
  | [] => [[]]
  | c :: cs =>
      match jsSplitOnSlash cs with
      | [] => [[]]
      | h :: t => if c == '/' then [] :: h :: t else (c :: h) :: t

/-- Test of the third date regex, d{1,2}/d{1,2}/d{4}: equivalently, the
split on / has exactly the three digit-run parts. -/
def isMDY (s : String) : Bool :=
  match jsSplitOnSlash s.data with
  | [month, day, year] => digitRun1or2 month && digitRun1or2 day && digitRun4 year
  | _ => false

/-- JavaScript t.padStart(2, "0") over char lists. -/
def jsPadStart2 (l : List Char) : List Char :=
  if l.length ≥ 2 then l else List.replicate (2 - l.length) '0' ++ l

/-- The unsupported-format message of convertDateFormat. -/
def unsupportedDateMessage (dateStr : String) : String :=
  "Unsupported date format: " ++ dateStr ++
  ". Expected formats: YYYY-MM-DD, YYYY-MM-DDTHH:MM:SS, MM/DD/YYYY."

/-- convertDateFormat of src/query.ts: pass YYYY-MM-DD through, truncate
YYYY-MM-DDTHH:MM:SS to its first ten chars, reorder and zero-pad
MM/DD/YYYY, and reject everything else with an UnprocessableContent. -/
def convertDateFormat (dateStr : String) : Except QueryError String :=
  if isYMD dateStr then .ok dateStr
  else if isYMDTime dateStr then .ok (String.mk (dateStr.data.take 10))
  else
    match jsSplitOnSlash dateStr.data with
    | [month, day, year] =>
        if digitRun1or2 month && digitRun1or2 day && digitRun4 year then
          .ok (String.mk (year ++ '-' :: (jsPadStart2 month ++ '-' :: jsPadStart2 day)))
        else
          .error (.unprocessableContent (unsupportedDateMessage dateStr) none)
    | _ => .error (.unprocessableContent (unsupportedDateMessage dateStr) none)

/-! ### Query request and response shapes -/

/-- A field of the selection map: the code only reads column fields. -/
inductive Field where
  | column (column : String)
  | otherField

/-- The literal date-range value, with both key spellings the code
accepts. -/
structure DateRangeValue where
  start_date : Option String
  startDate : Option String
  end_date : Option String
  endDate : Option String

/-- arguments.dateRange: a tagged literal. -/
structure LiteralDateRange where
  type : String
  value : DateRangeValue

/-- The arguments record of the query request. -/
structure QueryArguments where
  dateRange : Option LiteralDateRange

/-- The parts of the inbound NDC QueryRequest that runQuery reads:
request.query.fields (as an association list in object-key order),
request.query.limit, request.query.predicate and arguments. -/
structure QueryRequest where
  fields : List (String × Field)
  limit : Option Nat
  predicate : Option Expression
  arguments : QueryArguments

/-- One dateRanges entry of the outbound request. -/
structure GA4DateRange where
  startDate : String
  endDate : String

/-- The outbound IRunReportRequest as the code assembles it (dimensions
and metrics as name lists). -/
structure GA4RunReportRequest where
  property : String
  dateRanges : List GA4DateRange
  dimensions : List String
  metrics : List String
  limit : Nat
  dimensionFilter : Option GA4FilterExpression
  metricFilter : Option GA4FilterExpression

/-- A dimension value cell of a response row ({value?: string}). -/
structure DimensionValue where
  value : Option String

/-- A metric value cell of a response row. -/
structure MetricValue where
  value : Option String

/-- A response row; both cell lists may be absent. -/
structure GA4Row where
  dimensionValues : Option (List DimensionValue)
  metricValues : Option (List MetricValue)

/-- The response of the report call; rows may be absent. -/
structure GA4Response where
  rows : Option (List GA4Row)

/-- Outcome of the external call: a response or a transport error. -/
inductive ApiResult where
  | ok (response : GA4Response)
  | error (message : String)

/-- An NDC RowSet: rows as field-name/value association lists in
insertion order; none is the null sentinel. -/
structure RowSet where
  rows : List (List (String × Option String))

/-- The NDC QueryResponse: a list of row sets. -/
abbrev QueryResponse := List RowSet

/-! ### The query pipeline (runQuery of src/query.ts) -/

/-- The field-selection walk (lines 39-48): split the selection into the
requested-dimension and requested-metric maps, stripping the prefixes. -/
def classifyFields (fields : List (String × Field)) :
    List (String × String) × List (String × String) :=
  fields.foldl
    (fun acc entry =>
      match entry.2 with
      | .column columnName =>
          if jsStartsWith columnName "dimension_" then
            (acc.1 ++ [(entry.1, jsReplaceFirst columnName "dimension_" "")], acc.2)
          else if jsStartsWith columnName "metric_" then
            (acc.1, acc.2 ++ [(entry.1, jsReplaceFirst columnName "metric_" "")])
          else acc
      | .otherField => acc)
    ([], [])

/-- JavaScript a || b for optional strings: the empty string is falsy. -/
def jsStringOr (a b : Option String) : Option String :=
  match a with
  | some s => if s = "" then b else some s
  | none => b

/-- JavaScript coercion of a possibly-undefined string when it reaches a
regex test: undefined renders as "undefined". -/
def jsCoerceUndefined (a : Option String) : String :=
  match a with
  | some s => s
  | none => "undefined"

/-- JavaScript x || 10000 for the limit: 0 and absence are falsy. -/
def jsOrDefaultNat (x : Option Nat) (d : Nat) : Nat :=
  match x with
  | some n => if n = 0 then d else n
  | none => d

/-- The date-range handling of runQuery (lines 50-63): a literal date
range is converted key by key, anything else keeps the rolling-window
defaults. -/
def resolveDateRange (args : QueryArguments) : Except QueryError (String × String) :=
  match args.dateRange with
  | some dateRange =>
      if dateRange.type = "literal" then
        match convertDateFormat (jsCoerceUndefined
            (jsStringOr dateRange.value.start_date dateRange.value.startDate)) with
        | .error e => .error e
        | .ok startDate =>
          match convertDateFormat (jsCoerceUndefined
              (jsStringOr dateRange.value.end_date dateRange.value.endDate)) with
          | .error e => .error e
          | .ok endDate => .ok (startDate, endDate)
      else .ok ("7daysAgo", "today")
  | none => .ok ("7daysAgo", "today")

/-- The mandatory hostName scoping leaf (lines 78-86). -/
def hostDimensionFilter (domain : String) : GA4FilterExpression :=
  .filter { fieldName := "hostName",
            stringFilter := some { value := domain, matchType := "EXACT" } }

/-- Assembly of the outbound request (lines 98-111): the hostName
dimension is always appended to the requested dimensions. -/
def assembleGA4Request (property_id startDate endDate : String)
    (requestedDimensions requestedMetrics : List (String × String)) (limit : Nat)
    (ga4Filters : BuildFiltersResult) : GA4RunReportRequest :=
  { property := "properties/" ++ property_id
    dateRanges := [{ startDate := startDate, endDate := endDate }]
    dimensions := requestedDimensions.map Prod.snd ++ ["hostName"]
    metrics := requestedMetrics.map Prod.snd
    limit := limit
    dimensionFilter := ga4Filters.dimensionFilter
    metricFilter := ga4Filters.metricFilter }

/-- The no-data error (lines 129-142): message and diagnostic payload
list the requested dimension and metric names and a suggestion. -/
def noDataError (requestedDimensions requestedMetrics : List (String × String)) :
    QueryError :=
  let requestedDims := String.intercalate ", " (requestedDimensions.map Prod.snd)
  let requestedMets := String.intercalate ", " (requestedMetrics.map Prod.snd)
  .unprocessableContent
    ("No data available for the requested dimension/metric combination. Dimensions: [" ++
      requestedDims ++ "], Metrics: [" ++ requestedMets ++
      "]. Try using different dimensions or metrics, or adjust the date range and filters.")
    (some { requested_dimensions := requestedDimensions.map Prod.snd,
            requested_metrics := requestedMetrics.map Prod.snd,
            suggestion := "Try different dimension/metric combinations or adjust filters" })

/-- length of a possibly-absent list, JavaScript xs?.length || 0. -/
def jsLenOpt {α : Type} (xs : Option (List α)) : Nat :=
  match xs with
  | none => 0
  | some l => l.length

/-- The body of the per-row arity check (the forEach callback of lines
145-159): a missing-dimensions error and then a missing-metrics error
are pushed when the row is short. -/
def rowArityStep (expectedDimensions expectedMetrics : Nat) (errors : List String)
    (p : Nat × GA4Row) : List String :=
  let index := p.1
  let actualDimensions := jsLenOpt p.2.dimensionValues
  let actualMetrics := jsLenOpt p.2.metricValues
  let errors :=
    if actualDimensions < expectedDimensions then
      errors ++
        [s!"Row {index} missing dimensions: expected {expectedDimensions}, got {actualDimensions}"]
    else errors
  if actualMetrics < expectedMetrics then
    errors ++
      [s!"Row {index} missing metrics: expected {expectedMetrics}, got {actualMetrics}"]
  else errors

/-- The per-row arity validation (lines 144-159): every row is visited,
in order, and the shortfall errors accumulate over all rows. -/
def rowArityErrors (expectedDimensions expectedMetrics : Nat) (rows : List GA4Row) :
    List String :=
  rows.enum.foldl (rowArityStep expectedDimensions expectedMetrics) []

/-- JavaScript v || null on an optional string value: undefined, null and
the empty string all become null. -/
def jsStringOrNull (value : Option String) : Option String :=
  match value with
  | some s => if s = "" then none else some s
  | none => none

/-- row.dimensionValues?.[index]?.value || null. -/
def dimensionValueAt (row : GA4Row) (index : Nat) : Option String :=
  jsStringOrNull ((row.dimensionValues.getD []).get? index |>.bind DimensionValue.value)

/-- row.metricValues?.[index]?.value || null. -/
def metricValueAt (row : GA4Row) (index : Nat) : Option String :=
  jsStringOrNull ((row.metricValues.getD []).get? index |>.bind MetricValue.value)

/-- The row mapping (lines 166-184): positional projection of the row's
values onto the requested field names, dimensions first. -/
def mapRow (requestedDimensions requestedMetrics : List (String × String))
    (row : GA4Row) : List (String × Option String) :=
  requestedDimensions.enum.map (fun p => (p.2.1, dimensionValueAt row p.1)) ++
  requestedMetrics.enum.map (fun p => (p.2.1, metricValueAt row p.1))

/-- The response validation and row mapping of runQuery (lines 123-186):
an absent or empty row list is the no-data error, a row-arity shortfall
(collected over all rows) is a validation error, and otherwise every row
is projected onto the requested field names. -/
def processReportResponse (requestedDimensions requestedMetrics : List (String × String))
    (response : GA4Response) : Except QueryError QueryResponse :=
  match response.rows with
  | none => .error (noDataError requestedDimensions requestedMetrics)
  | some rows =>
    if rows.isEmpty then
      .error (noDataError requestedDimensions requestedMetrics)
    else
      let errors := rowArityErrors requestedDimensions.length requestedMetrics.length rows
      if !errors.isEmpty then
        .error (.unprocessableContent
          ("GA4 response validation failed: " ++ String.intercalate "; " errors) none)
      else
        .ok [{ rows := rows.map (mapRow requestedDimensions requestedMetrics) }]

/-- runQuery of src/query.ts, with the external call abstracted as `api`
and every issued request recorded in the returned trace list. -/
def runQuery (property_id domain : String) (request : QueryRequest)
    (api : GA4RunReportRequest → ApiResult) :
    Except QueryError QueryResponse × List GA4RunReportRequest :=
  let limit := jsOrDefaultNat request.limit 10000
  let requested := classifyFields request.fields
  let requestedDimensions := requested.1
  let requestedMetrics := requested.2
  match resolveDateRange request.arguments with
  | .error e => (.error e, [])
  | .ok (startDate, endDate) =>
    let filterParseResult := parsePredicateFilters request.predicate
    let ga4Filters := buildGA4Filters filterParseResult (some (hostDimensionFilter domain))
    if !ga4Filters.errors.isEmpty then
      (.error (.unprocessableContent
        ("Resolving filters failed: " ++ String.intercalate "; " ga4Filters.errors) none), [])
    else
      let ga4Request := assembleGA4Request property_id startDate endDate
        requestedDimensions requestedMetrics limit ga4Filters
      match api ga4Request with
      | .error message =>
          (.error (.badGateway ("GA4 API call failed: " ++ message)), [ga4Request])
      | .ok response =>
          (processReportResponse requestedDimensions requestedMetrics response, [ga4Request])

/-! ### Helper lemmas about the builder -/

/-- The metric leaves successfully derived from the parsed filters. -/
def derivedMetricLeaves (filters : List ParsedFilter) : List GA4Filter :=
  filters.filterMap (fun f => (createGA4MetricFilter f).toOption)

/-- The errors of the failed metric-leaf conversions, in order. -/
def metricLeafErrors (filters : List ParsedFilter) : List String :=
  filters.filterMap (fun f =>
    match createGA4MetricFilter f with
    | .error e => some e
    | .ok _ => none)

lemma foldl_dimensionFilterStep (filters : List ParsedFilter) (acc : List GA4Filter)
    (errs : List String) :
    filters.foldl dimensionFilterStep (acc, errs) =
      (acc ++ derivedDimensionLeaves filters, errs ++ dimensionLeafErrors filters) := by
  induction filters generalizing acc errs with
  | nil => simp [derivedDimensionLeaves, dimensionLeafErrors]
  | cons f rest ih =>
    simp only [List.foldl_cons]
    cases hc : createGA4DimensionFilter f with
    | ok g =>
      rw [show dimensionFilterStep (acc, errs) f = (acc ++ [g], errs) from by
        simp [dimensionFilterStep, hc]]
      rw [ih]
      simp [derivedDimensionLeaves, dimensionLeafErrors, hc, Except.toOption]
    | error e =>
      rw [show dimensionFilterStep (acc, errs) f = (acc, errs ++ [e]) from by
        simp [dimensionFilterStep, hc]]
      rw [ih]
      simp [derivedDimensionLeaves, dimensionLeafErrors, hc, Except.toOption]

lemma foldl_metricFilterStep (filters : List ParsedFilter) (acc : List GA4Filter)
    (errs : List String) :
    filters.foldl metricFilterStep (acc, errs) =
      (acc ++ derivedMetricLeaves filters, errs ++ metricLeafErrors filters) := by
  induction filters generalizing acc errs with
  | nil => simp [derivedMetricLeaves, metricLeafErrors]
  | cons f rest ih =>
    simp only [List.foldl_cons]
    cases hc : createGA4MetricFilter f with
    | ok g =>
      rw [show metricFilterStep (acc, errs) f = (acc ++ [g], errs) from by
        simp [metricFilterStep, hc]]
      rw [ih]
      simp [derivedMetricLeaves, metricLeafErrors, hc, Except.toOption]
    | error e =>
      rw [show metricFilterStep (acc, errs) f = (acc, errs ++ [e]) from by
        simp [metricFilterStep, hc]]
      rw [ih]
      simp [derivedMetricLeaves, metricLeafErrors, hc, Except.toOption]

lemma buildDimensionFilter_fst_with_leaf (filters : List ParsedFilter) (m : GA4Filter)
    (errs : List String) :
    (buildDimensionFilter filters (some (.filter m)) errs).1 =
      some (if (derivedDimensionLeaves filters).isEmpty then .filter m
            else .andGroup ((m :: derivedDimensionLeaves filters).map
              GA4FilterExpression.filter)) := by
  unfold buildDimensionFilter
  simp only [foldl_dimensionFilterStep]
  cases h : derivedDimensionLeaves filters <;> simp [h]

lemma buildDimensionFilter_snd (filters : List ParsedFilter)
    (existingFilter : Option GA4FilterExpression) (errs : List String) :
    (buildDimensionFilter filters existingFilter errs).2 =
      errs ++ dimensionLeafErrors filters := by
  unfold buildDimensionFilter
  simp only [foldl_dimensionFilterStep]
  split <;> rfl

lemma buildMetricFilter_snd (filters : List ParsedFilter) (errs : List String) :
    (buildMetricFilter filters errs).2 = errs ++ metricLeafErrors filters := by
  unfold buildMetricFilter
  simp only [foldl_metricFilterStep]
  split <;> rfl

/-- The builder only appends to the parse errors: they survive as a
prefix of the build errors. -/
lemma buildGA4Filters_errors_prefix (pr : FilterParseResult)
    (ex : Option GA4FilterExpression) :
    ∃ l, (buildGA4Filters pr ex).errors = pr.errors ++ l := by
  unfold buildGA4Filters
  by_cases hd : pr.dimensionFilters.isEmpty <;>
    by_cases hm : pr.metricFilters.isEmpty <;>
      simp [hd, hm, buildDimensionFilter_snd, buildMetricFilter_snd]

/-! ### Claims C2, C3, C4 -/

/-- C2: for every filter-parse result and a mandatory dimension leaf m,
the dimension tree buildGA4Filters produces is: m alone when no dimension
leaf was successfully derived, and otherwise one AND-group holding m
first and then every derived leaf (so an AND-group already at one derived
leaf, m is never dropped, and a bare single leaf is always the mandatory
one). -/
theorem buildGA4Filters_mandatory_leaf_combination (pr : FilterParseResult)
    (m : GA4Filter) :
    (buildGA4Filters pr (some (.filter m))).dimensionFilter =
      some (if (derivedDimensionLeaves pr.dimensionFilters).isEmpty
            then GA4FilterExpression.filter m
            else .andGroup ((m :: derivedDimensionLeaves pr.dimensionFilters).map
              GA4FilterExpression.filter)) := by
  unfold buildGA4Filters
  by_cases he : pr.dimensionFilters.isEmpty
  · have hnil : pr.dimensionFilters = [] := by simpa [List.isEmpty_iff] using he
    simp [he, hnil, derivedDimensionLeaves]
  · simp only [he, Bool.not_false, if_true]
    simp [buildDimensionFilter_fst_with_leaf]

/-- C3 counterexample: for the predicate metric_sessions _gt 100 the
claim says parsing and building succeed with an empty error list; in
fact the parse error list is already non-empty (the _gt operator is not
supported by this version of the filter module). -/
theorem metric_gt_claim_counterexample :
    (parsePredicateFilters (some (.binary_comparison_operator (.column "metric_sessions")
      "_gt" (.scalar (some (.num 100)))))).errors ≠ [] := by decide

/-- C3 as amended: for the predicate metric_sessions _gt 100, parsing
records exactly the unsupported-operator error for _gt (only _eq is
supported), no metric filter is parsed, and building therefore returns
that error and no metric filter tree. -/
theorem metric_gt_predicate_errors :
    parsePredicateFilters (some (.binary_comparison_operator (.column "metric_sessions")
        "_gt" (.scalar (some (.num 100))))) =
      { dimensionFilters := [], metricFilters := [],
        errors := ["Operator '_gt' is not supported. Only '_eq' (equal) is currently supported."] } ∧
    (buildGA4Filters (parsePredicateFilters (some (.binary_comparison_operator
        (.column "metric_sessions") "_gt" (.scalar (some (.num 100)))))) none).metricFilter
      = none ∧
    (buildGA4Filters (parsePredicateFilters (some (.binary_comparison_operator
        (.column "metric_sessions") "_gt" (.scalar (some (.num 100)))))) none).errors =
      ["Operator '_gt' is not supported. Only '_eq' (equal) is currently supported."] :=
  ⟨rfl, rfl, rfl⟩

/-- C4: for the operator/column-kind pairs the compatibility matrix
rejects — greater-than on a dimension, less-than on a dimension and
pattern-match on a metric — parsing records an error and extracts no
filter, so building yields a non-empty error list, the dimension tree
stays the mandatory leaf alone and no metric tree is produced. -/
theorem rejected_operator_kind_combinations_error (c cm domain : String) (v w : Scalar)
    (hdim : jsStartsWith c "dimension_" = true) (hmet : jsStartsWith cm "metric_" = true) :
    ((parsePredicateFilters (some (.binary_comparison_operator (.column c) "_gt"
        (.scalar (some v))))).errors ≠ [] ∧
      (parsePredicateFilters (some (.binary_comparison_operator (.column c) "_gt"
        (.scalar (some v))))).dimensionFilters = [] ∧
      (parsePredicateFilters (some (.binary_comparison_operator (.column c) "_gt"
        (.scalar (some v))))).metricFilters = [] ∧
      (buildGA4Filters (parsePredicateFilters (some (.binary_comparison_operator (.column c)
        "_gt" (.scalar (some v))))) (some (hostDimensionFilter domain))).dimensionFilter =
        some (hostDimensionFilter domain) ∧
      (buildGA4Filters (parsePredicateFilters (some (.binary_comparison_operator (.column c)
        "_gt" (.scalar (some v))))) (some (hostDimensionFilter domain))).metricFilter = none) ∧
    ((parsePredicateFilters (some (.binary_comparison_operator (.column c) "_lt"
        (.scalar (some v))))).errors ≠ [] ∧
      (parsePredicateFilters (some (.binary_comparison_operator (.column c) "_lt"
        (.scalar (some v))))).dimensionFilters = [] ∧
      (parsePredicateFilters (some (.binary_comparison_operator (.column c) "_lt"
        (.scalar (some v))))).metricFilters = [] ∧
      (buildGA4Filters (parsePredicateFilters (some (.binary_comparison_operator (.column c)
        "_lt" (.scalar (some v))))) (some (hostDimensionFilter domain))).dimensionFilter =
        some (hostDimensionFilter domain) ∧
      (buildGA4Filters (parsePredicateFilters (some (.binary_comparison_operator (.column c)
        "_lt" (.scalar (some v))))) (some (hostDimensionFilter domain))).metricFilter = none) ∧
    ((parsePredicateFilters (some (.binary_comparison_operator (.column cm) "_like"
        (.scalar (some w))))).errors ≠ [] ∧
      (parsePredicateFilters (some (.binary_comparison_operator (.column cm) "_like"
        (.scalar (some w))))).dimensionFilters = [] ∧
      (parsePredicateFilters (some (.binary_comparison_operator (.column cm) "_like"
        (.scalar (some w))))).metricFilters = [] ∧
      (buildGA4Filters (parsePredicateFilters (some (.binary_comparison_operator (.column cm)
        "_like" (.scalar (some w))))) (some (hostDimensionFilter domain))).dimensionFilter =
        some (hostDimensionFilter domain) ∧
      (buildGA4Filters (parsePredicateFilters (some (.binary_comparison_operator (.column cm)
        "_like" (.scalar (some w))))) (some (hostDimensionFilter domain))).metricFilter = none) := by
  refine ⟨⟨?_, rfl, rfl, rfl, rfl⟩, ⟨?_, rfl, rfl, rfl, rfl⟩, ⟨?_, rfl, rfl, rfl, rfl⟩⟩ <;>
    exact fun h => List.noConfusion h

/-! ### Helper lemmas about runQuery -/

lemma convertDateFormat_error_shape (s : String) (e : QueryError)
    (h : convertDateFormat s = .error e) :
    e = .unprocessableContent (unsupportedDateMessage s) none := by
  unfold convertDateFormat at h
  split at h
  · exact absurd h (by simp)
  · split at h
    · exact absurd h (by simp)
    · split at h
      · split at h
        · exact absurd h (by simp)
        · injection h with h1
          exact h1.symm
      · injection h with h1
        exact h1.symm

lemma resolveDateRange_error_shape (args : QueryArguments) (e : QueryError)
    (h : resolveDateRange args = .error e) :
    ∃ msg, e = .unprocessableContent msg none := by
  unfold resolveDateRange at h
  split at h
  · split at h
    · split at h
      · rename_i e1 he1
        injection h with h1
        subst h1
        exact ⟨_, convertDateFormat_error_shape _ _ he1⟩
      · split at h
        · rename_i e2 he2
          injection h with h2
          subst h2
          exact ⟨_, convertDateFormat_error_shape _ _ he2⟩
        · exact absurd h (by simp)
    · exact absurd h (by simp)
  · exact absurd h (by simp)

/-- When the dates resolve and no translation error accumulated, exactly
one outbound request is issued: the assembled one. -/
lemma runQuery_trace (property_id domain : String) (request : QueryRequest)
    (api : GA4RunReportRequest → ApiResult) (sd ed : String)
    (hd : resolveDateRange request.arguments = .ok (sd, ed))
    (hb : (buildGA4Filters (parsePredicateFilters request.predicate)
        (some (hostDimensionFilter domain))).errors.isEmpty = true) :
    (runQuery property_id domain request api).2 =
      [assembleGA4Request property_id sd ed (classifyFields request.fields).1
        (classifyFields request.fields).2 (jsOrDefaultNat request.limit 10000)
        (buildGA4Filters (parsePredicateFilters request.predicate)
          (some (hostDimensionFilter domain)))] := by
  unfold runQuery
  rw [hd]
  simp only [hb, Bool.not_true, Bool.false_eq_true, if_false]
  repeat first | rfl | split

/-- Any accumulated translation error makes runQuery fail before the
call: the trace stays empty, the failure is unprocessable-content, and
when the dates resolve the message is the joined error list. -/
lemma runQuery_translation_failure (property_id domain : String) (request : QueryRequest)
    (api : GA4RunReportRequest → ApiResult)
    (herr : (buildGA4Filters (parsePredicateFilters request.predicate)
        (some (hostDimensionFilter domain))).errors ≠ []) :
    (runQuery property_id domain request api).2 = [] ∧
    (∃ msg details, (runQuery property_id domain request api).1 =
      .error (.unprocessableContent msg details)) ∧
    (∀ sd ed, resolveDateRange request.arguments = .ok (sd, ed) →
      (runQuery property_id domain request api).1 =
        .error (.unprocessableContent ("Resolving filters failed: " ++
          String.intercalate "; " (buildGA4Filters (parsePredicateFilters request.predicate)
            (some (hostDimensionFilter domain))).errors) none)) := by
  have hie : (buildGA4Filters (parsePredicateFilters request.predicate)
      (some (hostDimensionFilter domain))).errors.isEmpty = false := by
    cases hq : (buildGA4Filters (parsePredicateFilters request.predicate)
        (some (hostDimensionFilter domain))).errors.isEmpty
    · rfl
    · exact absurd (List.isEmpty_iff.mp hq) herr
  cases hdr : resolveDateRange request.arguments with
  | error e =>
    obtain ⟨msg, rfl⟩ := resolveDateRange_error_shape _ _ hdr
    refine ⟨?_, ⟨msg, none, ?_⟩, ?_⟩
    · unfold runQuery
      rw [hdr]
    · unfold runQuery
      rw [hdr]
    · intro sd ed h
      exact Except.noConfusion h
  | ok p =>
    obtain ⟨sd, ed⟩ := p
    refine ⟨?_, ⟨"Resolving filters failed: " ++ String.intercalate "; "
        (buildGA4Filters (parsePredicateFilters request.predicate)
          (some (hostDimensionFilter domain))).errors, none, ?_⟩,
      fun sd2 ed2 h2 => ?_⟩ <;>
      (unfold runQuery; rw [hdr]; simp only [hie, Bool.not_false]; rw [if_pos trivial])

/-- Once the call happened, the result is exactly the response
processing of the returned response. -/
lemma runQuery_result_after_call (property_id domain : String) (request : QueryRequest)
    (api : GA4RunReportRequest → ApiResult) (sd ed : String) (resp : GA4Response)
    (hd : resolveDateRange request.arguments = .ok (sd, ed))
    (hb : (buildGA4Filters (parsePredicateFilters request.predicate)
        (some (hostDimensionFilter domain))).errors.isEmpty = true)
    (hapi : api (assembleGA4Request property_id sd ed (classifyFields request.fields).1
        (classifyFields request.fields).2 (jsOrDefaultNat request.limit 10000)
        (buildGA4Filters (parsePredicateFilters request.predicate)
          (some (hostDimensionFilter domain)))) = .ok resp) :
    (runQuery property_id domain request api).1 =
      processReportResponse (classifyFields request.fields).1
        (classifyFields request.fields).2 resp := by
  unfold runQuery
  rw [hd]
  simp only [hb, Bool.not_true, Bool.false_eq_true, if_false]
  rw [hapi]

/-- Inversion of a successful response processing: the rows were present
and non-empty and the output is their mapping. -/
lemma processReportResponse_ok_inv (dims mets : List (String × String))
    (resp : GA4Response) (out : QueryResponse)
    (h : processReportResponse dims mets resp = .ok out) :
    ∃ rows, resp.rows = some rows ∧ rows ≠ [] ∧
      out = [{ rows := rows.map (mapRow dims mets) }] := by
  unfold processReportResponse at h
  split at h
  · exact Except.noConfusion h
  · rename_i rows hrows
    split at h
    · exact Except.noConfusion h
    · dsimp only at h
      split at h
      · exact Except.noConfusion h
      · rename_i he ha
        injection h with h1
        exact ⟨rows, hrows, fun hn => he (by simp [hn]), h1.symm⟩

/-- Inversion of a successful runQuery. -/
lemma runQuery_ok_inv (property_id domain : String) (request : QueryRequest)
    (api : GA4RunReportRequest → ApiResult) (out : QueryResponse)
    (h : (runQuery property_id domain request api).1 = .ok out) :
    ∃ rows, rows ≠ [] ∧
      out = [{ rows := rows.map (mapRow (classifyFields request.fields).1
        (classifyFields request.fields).2) }] := by
  unfold runQuery at h
  split at h
  · exact Except.noConfusion h
  · dsimp only at h
    split at h
    · exact Except.noConfusion h
    · split at h
      · exact Except.noConfusion h
      · rename_i response hresp
        obtain ⟨rows, _, hne, hout⟩ := processReportResponse_ok_inv _ _ _ _ h
        exact ⟨rows, hne, hout⟩

/-! ### Helper lemmas about the parser -/

mutual

/-- Does the expression contain an or node anywhere? -/
def containsOr : Expression → Bool
  | .and expressions => containsOrList expressions
  | .or _ => true
  | .not expression => containsOr expression
  | .binary_comparison_operator _ _ _ => false
  | .exists_ predicate => containsOr predicate
  | .unary_comparison_operator _ _ => false
  | .unknown _ => false

/-- Does any expression of the list contain an or node? -/
def containsOrList : List Expression → Bool
  | [] => false
  | e :: rest => containsOr e || containsOrList rest

end

/-- Lift of containsOr to the optional predicate. -/
def containsOrOption : Option Expression → Bool
  | none => false
  | some e => containsOr e

lemma parseBinaryComparison_errors_prefix (column : ComparisonTarget) (operator : String)
    (value : ComparisonValue) (r : FilterParseResult) :
    ∃ l, (parseBinaryComparison column operator value r).errors = r.errors ++ l := by
  unfold parseBinaryComparison
  dsimp only
  split
  · exact ⟨_, rfl⟩
  · split
    · exact ⟨_, rfl⟩
    · split
      · exact ⟨_, rfl⟩
      · split
        · exact ⟨[], by simp⟩
        · split
          · exact ⟨[], by simp⟩
          · exact ⟨_, rfl⟩

/-- The parser only appends to the error list (joint statement for the
expression walk and the list walk, by strong induction on size). -/
lemma parse_errors_prefix_all (n : Nat) :
    (∀ e : Expression, sizeOf e ≤ n → ∀ r, ∃ l,
      (parseExpressionRecursive e r).errors = r.errors ++ l) ∧
    (∀ es : List Expression, sizeOf es ≤ n → ∀ r, ∃ l,
      (parseExpressionList es r).errors = r.errors ++ l) := by
  induction n using Nat.strong_induction_on with
  | _ n ih =>
    constructor
    · intro e he r
      cases e with
      | and es =>
        have hs : sizeOf es < n := by
          have h1 : sizeOf (Expression.and es) = 1 + sizeOf es := by simp
          omega
        obtain ⟨l, hl⟩ := (ih (sizeOf es) hs).2 es le_rfl r
        exact ⟨l, by rw [parseExpressionRecursive]; exact hl⟩
      | or es =>
        have hs : sizeOf es < n := by
          have h1 : sizeOf (Expression.or es) = 1 + sizeOf es := by simp
          omega
        obtain ⟨l, hl⟩ := (ih (sizeOf es) hs).2 es le_rfl (addError r orWarningMessage)
        refine ⟨[orWarningMessage] ++ l, ?_⟩
        rw [parseExpressionRecursive]
        rw [hl]
        simp [addError]
      | not e1 =>
        exact ⟨["NOT expressions are not supported in GA4 filters"],
          by rw [parseExpressionRecursive]; rfl⟩
      | binary_comparison_operator column operator value =>
        obtain ⟨l, hl⟩ := parseBinaryComparison_errors_prefix column operator value r
        exact ⟨l, by rw [parseExpressionRecursive]; exact hl⟩
      | exists_ p =>
        exact ⟨["EXISTS expressions are not supported in GA4 filters"],
          by rw [parseExpressionRecursive]; rfl⟩
      | unary_comparison_operator column operator =>
        exact ⟨["Unary comparison operators are not supported in GA4 filters"],
          by rw [parseExpressionRecursive]; rfl⟩
      | unknown tag =>
        exact ⟨["Unknown expression type: " ++ tag],
          by rw [parseExpressionRecursive]; rfl⟩
    · intro es hes r
      cases es with
      | nil => exact ⟨[], by rw [parseExpressionList]; simp⟩
      | cons e rest =>
        have hse : sizeOf e < n := by
          have h1 : sizeOf (e :: rest) = 1 + sizeOf e + sizeOf rest := by simp
          have h2 : 0 ≤ sizeOf rest := Nat.zero_le _
          omega
        have hsr : sizeOf rest < n := by
          have h1 : sizeOf (e :: rest) = 1 + sizeOf e + sizeOf rest := by simp
          omega
        obtain ⟨l1, h1⟩ := (ih (sizeOf e) hse).1 e le_rfl r
        obtain ⟨l2, h2⟩ := (ih (sizeOf rest) hsr).2 rest le_rfl
          (parseExpressionRecursive e r)
        refine ⟨l1 ++ l2, ?_⟩
        rw [parseExpressionList]
        rw [h2, h1, List.append_assoc]

lemma parseExpressionList_errors_prefix (es : List Expression) (r : FilterParseResult) :
    ∃ l, (parseExpressionList es r).errors = r.errors ++ l :=
  (parse_errors_prefix_all (sizeOf es)).2 es le_rfl r

/-- An or node anywhere in the expression leaves the parser with a
non-empty error list (joint statement, strong induction on size). -/
lemma parse_or_fails_all (n : Nat) :
    (∀ e : Expression, sizeOf e ≤ n → containsOr e = true → ∀ r,
      (parseExpressionRecursive e r).errors ≠ []) ∧
    (∀ es : List Expression, sizeOf es ≤ n → containsOrList es = true → ∀ r,
      (parseExpressionList es r).errors ≠ []) := by
  induction n using Nat.strong_induction_on with
  | _ n ih =>
    constructor
    · intro e he hc r
      cases e with
      | and es =>
        have hs : sizeOf es < n := by
          have h1 : sizeOf (Expression.and es) = 1 + sizeOf es := by simp
          omega
        rw [containsOr] at hc
        rw [parseExpressionRecursive]
        exact (ih (sizeOf es) hs).2 es le_rfl hc r
      | or es =>
        obtain ⟨l, hl⟩ := parseExpressionList_errors_prefix es (addError r orWarningMessage)
        rw [parseExpressionRecursive, hl]
        simp [addError]
      | not e1 => rw [parseExpressionRecursive]; simp [addError]
      | binary_comparison_operator column operator value =>
        rw [containsOr] at hc
        exact absurd hc (by simp)
      | exists_ p => rw [parseExpressionRecursive]; simp [addError]
      | unary_comparison_operator column operator =>
        rw [parseExpressionRecursive]; simp [addError]
      | unknown tag => rw [parseExpressionRecursive]; simp [addError]
    · intro es hes hc r
      cases es with
      | nil => rw [containsOrList] at hc; exact absurd hc (by simp)
      | cons e rest =>
        have hse : sizeOf e < n := by
          have h1 : sizeOf (e :: rest) = 1 + sizeOf e + sizeOf rest := by simp
          omega
        have hsr : sizeOf rest < n := by
          have h1 : sizeOf (e :: rest) = 1 + sizeOf e + sizeOf rest := by simp
          omega
        rw [containsOrList] at hc
        rw [parseExpressionList]
        cases (Bool.or_eq_true _ _).mp hc with
        | inl h1 =>
          have hne := (ih (sizeOf e) hse).1 e le_rfl h1 r
          obtain ⟨l, hl⟩ := parseExpressionList_errors_prefix rest
            (parseExpressionRecursive e r)
          rw [hl]
          intro hnil
          exact hne (List.append_eq_nil.mp hnil).1
        | inr h2 =>
          exact (ih (sizeOf rest) hsr).2 rest le_rfl h2 (parseExpressionRecursive e r)

/-- An or node anywhere in the predicate leaves parsePredicateFilters
with a non-empty error list. -/
lemma parsePredicateFilters_or_errors (p : Expression) (hc : containsOr p = true) :
    (parsePredicateFilters (some p)).errors ≠ [] := by
  rw [parsePredicateFilters]
  exact (parse_or_fails_all (sizeOf p)).1 p le_rfl hc emptyParseResult

/-- Non-empty parse errors survive building. -/
lemma buildGA4Filters_errors_ne_nil (pr : FilterParseResult)
    (ex : Option GA4FilterExpression) (h : pr.errors ≠ []) :
    (buildGA4Filters pr ex).errors ≠ [] := by
  obtain ⟨l, hl⟩ := buildGA4Filters_errors_prefix pr ex
  rw [hl]
  intro hn
  exact h (List.append_eq_nil.mp hn).1

/-! ### Claims C1, C5, C9 -/

/-- C1: whenever predicate parsing or filter building accumulates at
least one error, runQuery fails before the outbound report call — the
trace of issued requests is empty, the failure is an
unprocessable-content error, and (once the date range resolves) its
message is exactly the joined error list. -/
theorem translation_errors_block_outbound_call (property_id domain : String)
    (request : QueryRequest) (api : GA4RunReportRequest → ApiResult)
    (herr : (buildGA4Filters (parsePredicateFilters request.predicate)
        (some (hostDimensionFilter domain))).errors ≠ []) :
    (runQuery property_id domain request api).2 = [] ∧
    (∃ msg details, (runQuery property_id domain request api).1 =
      .error (.unprocessableContent msg details)) ∧
    (∀ sd ed, resolveDateRange request.arguments = .ok (sd, ed) →
      (runQuery property_id domain request api).1 =
        .error (.unprocessableContent ("Resolving filters failed: " ++
          String.intercalate "; " (buildGA4Filters (parsePredicateFilters request.predicate)
            (some (hostDimensionFilter domain))).errors) none)) :=
  runQuery_translation_failure property_id domain request api herr

/-- C1 witness: a NOT predicate accumulates an error and the concrete
query issues no request. -/
theorem translation_errors_block_outbound_call_witness :
    (buildGA4Filters (parsePredicateFilters (some (.not (.unknown "x"))))
      (some (hostDimensionFilter "example.com"))).errors ≠ [] ∧
    (runQuery "p1" "example.com"
      { fields := [("a", Field.column "dimension_country")], limit := none,
        predicate := some (.not (.unknown "x")), arguments := { dateRange := none } }
      (fun _ => ApiResult.error "down")).2 = [] := by
  constructor
  · decide
  · exact (translation_errors_block_outbound_call "p1" "example.com"
      { fields := [("a", Field.column "dimension_country")], limit := none,
        predicate := some (.not (.unknown "x")), arguments := { dateRange := none } }
      (fun _ => ApiResult.error "down") (by decide)).1

/-- C5: for the selection a: dimension_country, b: metric_sessions with
no predicate, no date range and no limit, the assembled outbound request
has dimensions [country, hostName] (the scoping dimension appended
last), metrics [sessions], the rolling default date range, limit 10000,
the mandatory scoping leaf alone as dimension filter, and no metric
filter. -/
theorem default_query_assembles_expected_request (property_id domain : String)
    (api : GA4RunReportRequest → ApiResult) :
    (runQuery property_id domain
      { fields := [("a", Field.column "dimension_country"),
                   ("b", Field.column "metric_sessions")],
        limit := none, predicate := none, arguments := { dateRange := none } } api).2 =
      [{ property := "properties/" ++ property_id,
         dateRanges := [{ startDate := "7daysAgo", endDate := "today" }],
         dimensions := ["country", "hostName"],
         metrics := ["sessions"],
         limit := 10000,
         dimensionFilter := some (hostDimensionFilter domain),
         metricFilter := none }] := by
  rw [runQuery_trace property_id domain
    { fields := [("a", Field.column "dimension_country"),
                 ("b", Field.column "metric_sessions")],
      limit := none, predicate := none, arguments := { dateRange := none } }
    api "7daysAgo" "today" rfl rfl]
  rfl

/-- C9: an or node makes the parser record the warning-class error and
then walk the children exactly as an and node would (flattening them
into the same lists); consequently a query whose predicate contains an
or node anywhere fails with no outbound request issued. -/
theorem or_expressions_warn_and_fail :
    (∀ es r, parseExpressionRecursive (Expression.or es) r =
      parseExpressionRecursive (Expression.and es) (addError r orWarningMessage)) ∧
    (∀ property_id domain request api,
      containsOrOption request.predicate = true →
      (runQuery property_id domain request api).2 = [] ∧
      ∃ e, (runQuery property_id domain request api).1 = Except.error e) := by
  constructor
  · intro es r
    rw [parseExpressionRecursive, parseExpressionRecursive]
  · intro property_id domain request api hc
    cases hp : request.predicate with
    | none => rw [hp] at hc; exact absurd hc (by simp [containsOrOption])
    | some p =>
      rw [hp] at hc
      have hcp : containsOr p = true := hc
      have hpe : (parsePredicateFilters (some p)).errors ≠ [] :=
        parsePredicateFilters_or_errors p hcp
      have hb : (buildGA4Filters (parsePredicateFilters request.predicate)
          (some (hostDimensionFilter domain))).errors ≠ [] := by
        rw [hp]
        exact buildGA4Filters_errors_ne_nil _ _ hpe
      obtain ⟨h1, ⟨msg, d, h2⟩, _⟩ :=
        runQuery_translation_failure property_id domain request api hb
      exact ⟨h1, ⟨_, h2⟩⟩

/-- C9 witness: a concrete or predicate fails with an empty trace. -/
theorem or_expressions_warn_and_fail_witness :
    containsOrOption (some (Expression.or [])) = true ∧
    (runQuery "p1" "example.com"
      { fields := [], limit := none,
        predicate := some (Expression.or []), arguments := { dateRange := none } }
      (fun _ => ApiResult.error "down")).2 = [] := by
  constructor
  · decide
  · exact (or_expressions_warn_and_fail.2 "p1" "example.com"
      { fields := [], limit := none,
        predicate := some (Expression.or []), arguments := { dateRange := none } }
      (fun _ => ApiResult.error "down") (by decide)).1

/-! ### Claims C7, C8, C10 -/

lemma foldl_rowArityStep_length (ed em : Nat) (l : List (Nat × GA4Row)) :
    ∀ acc : List String,
      (l.foldl (rowArityStep ed em) acc).length =
        acc.length + (l.map (fun p =>
          (if jsLenOpt p.2.dimensionValues < ed then 1 else 0) +
          (if jsLenOpt p.2.metricValues < em then 1 else 0))).sum := by
  induction l with
  | nil => intro acc; simp
  | cons p rest ih =>
    intro acc
    rw [List.foldl_cons, ih]
    have hstep : (rowArityStep ed em acc p).length = acc.length +
        ((if jsLenOpt p.2.dimensionValues < ed then 1 else 0) +
         (if jsLenOpt p.2.metricValues < em then 1 else 0)) := by
      unfold rowArityStep
      by_cases h1 : jsLenOpt p.2.dimensionValues < ed <;>
        by_cases h2 : jsLenOpt p.2.metricValues < em <;>
          simp [h1, h2]
    rw [hstep]
    simp [List.sum_cons]
    omega

/-- C8: the arity validator contributes exactly one error per shortfall
per row, summed over every row (so errors are collected across all rows);
whenever any row is short the whole run aborts with the joined error
list instead of returning rows; and on the 2-row response where only row
index 1 is one dimension short, the collected list is exactly the one
error citing row index 1. -/
theorem row_arity_validation :
    (∀ ed em rows, (rowArityErrors ed em rows).length =
      (rows.map (fun row =>
        (if jsLenOpt row.dimensionValues < ed then 1 else 0) +
        (if jsLenOpt row.metricValues < em then 1 else 0))).sum) ∧
    (∀ property_id domain request api sd ed resp rows,
      resolveDateRange request.arguments = .ok (sd, ed) →
      (buildGA4Filters (parsePredicateFilters request.predicate)
        (some (hostDimensionFilter domain))).errors.isEmpty = true →
      api (assembleGA4Request property_id sd ed (classifyFields request.fields).1
        (classifyFields request.fields).2 (jsOrDefaultNat request.limit 10000)
        (buildGA4Filters (parsePredicateFilters request.predicate)
          (some (hostDimensionFilter domain)))) = .ok resp →
      resp.rows = some rows → rows ≠ [] →
      rowArityErrors (classifyFields request.fields).1.length
        (classifyFields request.fields).2.length rows ≠ [] →
      (runQuery property_id domain request api).1 =
        .error (.unprocessableContent ("GA4 response validation failed: " ++
          String.intercalate "; " (rowArityErrors (classifyFields request.fields).1.length
            (classifyFields request.fields).2.length rows)) none)) ∧
    (rowArityErrors 2 1
      [{ dimensionValues := some [{ value := some "x" }, { value := some "y" }],
         metricValues := some [{ value := some "1" }] },
       { dimensionValues := some [{ value := some "x" }],
         metricValues := some [{ value := some "1" }] }] =
      ["Row 1 missing dimensions: expected 2, got 1"]) := by
  refine ⟨?_, ?_, by rfl⟩
  · intro ed em rows
    unfold rowArityErrors
    rw [foldl_rowArityStep_length]
    rw [show (fun (p : Nat × GA4Row) =>
        (if jsLenOpt p.2.dimensionValues < ed then 1 else 0) +
        (if jsLenOpt p.2.metricValues < em then 1 else 0)) =
      ((fun row =>
        (if jsLenOpt row.dimensionValues < ed then 1 else 0) +
        (if jsLenOpt row.metricValues < em then 1 else 0)) ∘ Prod.snd) from rfl]
    rw [← List.map_map, List.enum_map_snd]
    simp
  · intro property_id domain request api sd ed resp rows hd hb hapi hrows hne harr
    rw [runQuery_result_after_call property_id domain request api sd ed resp hd hb hapi]
    have hempty : rows.isEmpty = false := by
      cases hq : rows.isEmpty
      · rfl
      · exact absurd (List.isEmpty_iff.mp hq) hne
    have harr2 : (rowArityErrors (classifyFields request.fields).1.length
        (classifyFields request.fields).2.length rows).isEmpty = false := by
      cases hq : (rowArityErrors (classifyFields request.fields).1.length
          (classifyFields request.fields).2.length rows).isEmpty
      · rfl
      · exact absurd (List.isEmpty_iff.mp hq) harr
    unfold processReportResponse
    rw [hrows]
    simp only [hempty, Bool.false_eq_true, if_false, harr2, Bool.not_false]
    rw [if_pos trivial]

/-- C8 witness: the abort conjunct discharged on a concrete 2-row
response with one dimension shortfall at row index 1. -/
theorem row_arity_validation_witness :
    (runQuery "p1" "example.com"
      { fields := [("a", Field.column "dimension_country"),
                   ("b", Field.column "dimension_city"),
                   ("m", Field.column "metric_sessions")],
        limit := none, predicate := none, arguments := { dateRange := none } }
      (fun _ => ApiResult.ok { rows := some [
        { dimensionValues := some [{ value := some "x" }, { value := some "y" }],
          metricValues := some [{ value := some "1" }] },
        { dimensionValues := some [{ value := some "x" }],
          metricValues := some [{ value := some "1" }] }] })).1 =
      .error (.unprocessableContent
        "GA4 response validation failed: Row 1 missing dimensions: expected 2, got 1"
        none) := by
  have h := row_arity_validation.2.1 "p1" "example.com"
    { fields := [("a", Field.column "dimension_country"),
                 ("b", Field.column "dimension_city"),
                 ("m", Field.column "metric_sessions")],
      limit := none, predicate := none, arguments := { dateRange := none } }
    (fun _ => ApiResult.ok { rows := some [
      { dimensionValues := some [{ value := some "x" }, { value := some "y" }],
        metricValues := some [{ value := some "1" }] },
      { dimensionValues := some [{ value := some "x" }],
        metricValues := some [{ value := some "1" }] }] })
    "7daysAgo" "today"
    { rows := some [
      { dimensionValues := some [{ value := some "x" }, { value := some "y" }],
        metricValues := some [{ value := some "1" }] },
      { dimensionValues := some [{ value := some "x" }],
        metricValues := some [{ value := some "1" }] }] }
    [{ dimensionValues := some [{ value := some "x" }, { value := some "y" }],
       metricValues := some [{ value := some "1" }] },
     { dimensionValues := some [{ value := some "x" }],
       metricValues := some [{ value := some "1" }] }]
    rfl rfl rfl rfl (List.cons_ne_nil _ _) (by decide)
  exact h

/-- C7: an absent or empty row list always makes the response processing
fail with the no-data unprocessable-content error, whose message and
payload carry the requested dimension and metric names and a suggestion;
the same holds through runQuery after the call, and a successful
runQuery never returns an empty row set. -/
theorem empty_response_is_diagnostic_error :
    (∀ dims mets resp, (resp.rows = none ∨ resp.rows = some ([] : List GA4Row)) →
      processReportResponse dims mets resp = .error (noDataError dims mets)) ∧
    (∀ dims mets : List (String × String), noDataError dims mets =
      .unprocessableContent
        ("No data available for the requested dimension/metric combination. Dimensions: [" ++
          String.intercalate ", " (dims.map Prod.snd) ++ "], Metrics: [" ++
          String.intercalate ", " (mets.map Prod.snd) ++
          "]. Try using different dimensions or metrics, or adjust the date range and filters.")
        (some { requested_dimensions := dims.map Prod.snd,
                requested_metrics := mets.map Prod.snd,
                suggestion := "Try different dimension/metric combinations or adjust filters" })) ∧
    (∀ property_id domain request api sd ed resp,
      resolveDateRange request.arguments = .ok (sd, ed) →
      (buildGA4Filters (parsePredicateFilters request.predicate)
        (some (hostDimensionFilter domain))).errors.isEmpty = true →
      api (assembleGA4Request property_id sd ed (classifyFields request.fields).1
        (classifyFields request.fields).2 (jsOrDefaultNat request.limit 10000)
        (buildGA4Filters (parsePredicateFilters request.predicate)
          (some (hostDimensionFilter domain)))) = .ok resp →
      (resp.rows = none ∨ resp.rows = some ([] : List GA4Row)) →
      (runQuery property_id domain request api).1 =
        .error (noDataError (classifyFields request.fields).1
          (classifyFields request.fields).2)) ∧
    (∀ property_id domain request api out,
      (runQuery property_id domain request api).1 = .ok out →
      ∀ rs ∈ out, rs.rows ≠ []) := by
  have hmain : ∀ (dims mets : List (String × String)) (resp : GA4Response),
      (resp.rows = none ∨ resp.rows = some ([] : List GA4Row)) →
      processReportResponse dims mets resp = .error (noDataError dims mets) := by
    intro dims mets resp h
    cases h with
    | inl h => unfold processReportResponse; rw [h]
    | inr h => unfold processReportResponse; rw [h]; rfl
  refine ⟨hmain, fun dims mets => rfl, ?_, ?_⟩
  · intro property_id domain request api sd ed resp hd hb hapi h
    rw [runQuery_result_after_call property_id domain request api sd ed resp hd hb hapi]
    exact hmain _ _ _ h
  · intro property_id domain request api out h rs hrs
    obtain ⟨rows, hne, hout⟩ := runQuery_ok_inv property_id domain request api out h
    subst hout
    rcases List.mem_singleton.mp hrs with rfl
    simpa using hne

/-- C7 witness: the no-data error on a concrete empty response, with the
runQuery-level conjunct discharged on a concrete query. -/
theorem empty_response_is_diagnostic_error_witness :
    processReportResponse [("a", "country")] [("b", "sessions")] { rows := none } =
      .error (noDataError [("a", "country")] [("b", "sessions")]) ∧
    (runQuery "p1" "example.com"
      { fields := [("a", Field.column "dimension_country")], limit := none,
        predicate := none, arguments := { dateRange := none } }
      (fun _ => ApiResult.ok { rows := some [] })).1 =
      .error (noDataError [("a", "country")] []) := by
  constructor
  · exact empty_response_is_diagnostic_error.1 [("a", "country")] [("b", "sessions")]
      { rows := none } (Or.inl rfl)
  · exact empty_response_is_diagnostic_error.2.2.1 "p1" "example.com"
      { fields := [("a", Field.column "dimension_country")], limit := none,
        predicate := none, arguments := { dateRange := none } }
      (fun _ => ApiResult.ok { rows := some [] }) "7daysAgo" "today"
      { rows := some [] } rfl rfl rfl (Or.inr rfl)

lemma jsStringOrNull_ne_empty (v : Option String) : jsStringOrNull v ≠ some "" := by
  unfold jsStringOrNull
  cases v with
  | none => simp
  | some s =>
    by_cases h : s = "" <;> simp [h]

/-- C10: a response value that is present but equal to the empty string
maps to null exactly as a missing value does, and no value of any mapped
output row — hence of any successful runQuery result — is the empty
string. -/
theorem empty_string_values_become_null :
    jsStringOrNull (some "") = jsStringOrNull none ∧
    jsStringOrNull (some "") = none ∧
    (∀ dims mets row kv, kv ∈ mapRow dims mets row → kv.2 ≠ some "") ∧
    (∀ property_id domain request api out,
      (runQuery property_id domain request api).1 = .ok out →
      ∀ rs ∈ out, ∀ r ∈ rs.rows, ∀ kv ∈ r, kv.2 ≠ some "") := by
  have hmap : ∀ (dims mets : List (String × String)) (row : GA4Row)
      (kv : String × Option String), kv ∈ mapRow dims mets row → kv.2 ≠ some "" := by
    intro dims mets row kv hkv
    unfold mapRow at hkv
    rcases List.mem_append.mp hkv with h | h
    · obtain ⟨p, _, rfl⟩ := List.mem_map.mp h
      exact jsStringOrNull_ne_empty _
    · obtain ⟨p, _, rfl⟩ := List.mem_map.mp h
      exact jsStringOrNull_ne_empty _
  refine ⟨rfl, rfl, hmap, ?_⟩
  intro property_id domain request api out h rs hrs r hr kv hkv
  obtain ⟨rows, hne, hout⟩ := runQuery_ok_inv property_id domain request api out h
  subst hout
  rcases List.mem_singleton.mp hrs with rfl
  obtain ⟨row, _, rfl⟩ := List.mem_map.mp hr
  exact hmap _ _ _ _ hkv

/-- C10 witness: a concrete mapped row with an empty-string response
value, whose output value is null rather than the empty string. -/
theorem empty_string_values_become_null_witness :
    ("a", (none : Option String)) ∈ mapRow [("a", "country")] []
      { dimensionValues := some [{ value := some "" }], metricValues := some [] } ∧
    ¬ (("a", (none : Option String)).2 = some "") := by
  constructor
  · decide
  · exact empty_string_values_become_null.2.2.1 [("a", "country")] []
      { dimensionValues := some [{ value := some "" }], metricValues := some [] }
      ("a", none) (by decide)

/-! ### Claim C6: date-format normalization -/

lemma matchSeq_length {ps : List (Char → Bool)} {l : List Char}
    (h : matchSeq ps l = true) : l.length = ps.length := by
  induction ps generalizing l with
  | nil =>
    cases l with
    | nil => rfl
    | cons c cs => simp [matchSeq] at h
  | cons p ps ih =>
    cases l with
    | nil => simp [matchSeq] at h
    | cons c cs =>
      rw [matchSeq] at h
      obtain ⟨h1, h2⟩ := Bool.and_eq_true_iff.mp h
      simp [ih h2]

lemma matchSeq_append {ps qs : List (Char → Bool)} {l1 l2 : List Char}
    (hlen : ps.length = l1.length) :
    matchSeq (ps ++ qs) (l1 ++ l2) = (matchSeq ps l1 && matchSeq qs l2) := by
  induction ps generalizing l1 with
  | nil =>
    cases l1 with
    | nil => simp [matchSeq]
    | cons c cs => simp at hlen
  | cons p ps ih =>
    cases l1 with
    | nil => simp at hlen
    | cons c cs =>
      rw [List.cons_append, List.cons_append, matchSeq, matchSeq]
      rw [ih (by simpa using hlen)]
      rw [Bool.and_assoc]

lemma digitRun4_shape (l : List Char) (h : digitRun4 l = true) :
    ∃ a b c d, l = [a, b, c, d] ∧ a.isDigit = true ∧ b.isDigit = true ∧
      c.isDigit = true ∧ d.isDigit = true := by
  unfold digitRun4 allDigits at h
  obtain ⟨h1, h2⟩ := Bool.and_eq_true_iff.mp h
  match l, h1 with
  | [a, b, c, d], _ =>
    simp [List.all] at h2
    exact ⟨a, b, c, d, rfl, h2.1, h2.2.1, h2.2.2.1, h2.2.2.2⟩

lemma jsPadStart2_shape (l : List Char) (h : digitRun1or2 l = true) :
    ∃ a b, jsPadStart2 l = [a, b] ∧ a.isDigit = true ∧ b.isDigit = true := by
  unfold digitRun1or2 allDigits at h
  obtain ⟨h1, h2⟩ := Bool.and_eq_true_iff.mp h
  rcases Bool.or_eq_true_iff.mp h1 with hl | hl
  · match l, hl with
    | [a], _ =>
      simp [List.all] at h2
      exact ⟨'0', a, rfl, by decide, h2⟩
  · match l, hl with
    | [a, b], _ =>
      simp [List.all] at h2
      exact ⟨a, b, rfl, h2.1, h2.2⟩

lemma matchSeq_datePattern_build (y m d : List Char)
    (hy : digitRun4 y = true) (hm : digitRun1or2 m = true) (hd : digitRun1or2 d = true) :
    matchSeq datePattern (y ++ '-' :: (jsPadStart2 m ++ '-' :: jsPadStart2 d)) = true := by
  obtain ⟨y1, y2, y3, y4, rfl, hy1, hy2, hy3, hy4⟩ := digitRun4_shape y hy
  obtain ⟨m1, m2, hmp, hm1, hm2⟩ := jsPadStart2_shape m hm
  obtain ⟨d1, d2, hdp, hd1, hd2⟩ := jsPadStart2_shape d hd
  rw [hmp, hdp]
  simp [datePattern, matchSeq, charIs, hy1, hy2, hy3, hy4, hm1, hm2, hd1, hd2]

/-- Every successful output of convertDateFormat matches YYYY-MM-DD. -/
lemma convertDateFormat_ok_isYMD (s e : String) (h : convertDateFormat s = .ok e) :
    isYMD e = true := by
  unfold convertDateFormat at h
  split at h
  · rename_i h1
    injection h with he
    subst he
    exact h1
  · split at h
    · rename_i h1 h2
      injection h with he
      subst he
      unfold isYMDTime at h2
      unfold isYMD
      have hlen : s.data.length = 19 := by
        have := matchSeq_length h2
        simpa [dateTimePattern, datePattern] using this
      have hsplit : s.data = s.data.take 10 ++ s.data.drop 10 :=
        (List.take_append_drop _ _).symm
      rw [dateTimePattern] at h2
      rw [hsplit] at h2
      rw [matchSeq_append (by simp [datePattern, List.length_take, hlen])] at h2
      exact (Bool.and_eq_true_iff.mp h2).1
    · split at h
      · rename_i month day year heq
        split at h
        · rename_i hcond
          injection h with he
          subst he
          have hsplit3 := Bool.and_eq_true_iff.mp hcond
          have h1 := (Bool.and_eq_true_iff.mp hsplit3.1).1
          have h2 := (Bool.and_eq_true_iff.mp hsplit3.1).2
          have h3 := hsplit3.2
          unfold isYMD
          exact matchSeq_datePattern_build year month day h3 h1 h2
        · exact Except.noConfusion h
      · exact Except.noConfusion h

lemma convertDateFormat_idem (s e : String) (h : convertDateFormat s = .ok e) :
    convertDateFormat e = .ok e := by
  have hy := convertDateFormat_ok_isYMD s e h
  unfold convertDateFormat
  rw [if_pos hy]

lemma convertDateFormat_total_on_formats (s : String)
    (hfmt : (isYMD s || (isYMDTime s || isMDY s)) = true) :
    ∃ e, convertDateFormat s = .ok e ∧ isYMD e = true := by
  cases hymd : isYMD s
  · cases hymdt : isYMDTime s
    · have hmdy : isMDY s = true := by
        rcases Bool.or_eq_true_iff.mp hfmt with h | h
        · rw [hymd] at h; exact absurd h (by simp)
        · rcases Bool.or_eq_true_iff.mp h with h2 | h2
          · rw [hymdt] at h2; exact absurd h2 (by simp)
          · exact h2
      unfold isMDY at hmdy
      split at hmdy
      · rename_i month day year heq
        have hconv : convertDateFormat s =
            .ok (String.mk (year ++ '-' :: (jsPadStart2 month ++ '-' :: jsPadStart2 day))) := by
          unfold convertDateFormat
          rw [hymd, hymdt]
          simp only [Bool.false_eq_true, if_false]
          rw [heq]
          exact if_pos hmdy
        exact ⟨_, hconv, convertDateFormat_ok_isYMD s _ hconv⟩
      · exact absurd hmdy (by simp)
    · have hconv : convertDateFormat s = .ok (String.mk (s.data.take 10)) := by
        unfold convertDateFormat
        rw [hymd]
        simp only [Bool.false_eq_true, if_false]
        rw [if_pos hymdt]
      exact ⟨_, hconv, convertDateFormat_ok_isYMD s _ hconv⟩
  · have hconv : convertDateFormat s = .ok s := by
      unfold convertDateFormat
      rw [if_pos hymd]
    exact ⟨s, hconv, hymd⟩

lemma convertDateFormat_unsupported (s : String) (h1 : isYMD s = false)
    (h2 : isYMDTime s = false) (h3 : isMDY s = false) :
    convertDateFormat s = .error (.unprocessableContent (unsupportedDateMessage s) none) := by
  unfold convertDateFormat
  rw [h1, h2]
  simp only [Bool.false_eq_true, if_false]
  unfold isMDY at h3
  split
  · rename_i month day year heq
    rw [heq] at h3
    have hcf : (digitRun1or2 month && digitRun1or2 day && digitRun4 year) = false := h3
    exact if_neg (fun hc => by rw [hcf] at hc; exact Bool.noConfusion hc)
  · rfl

lemma digit_ne_slash (c : Char) (h : c.isDigit = true) : (c == '/') = false := by
  cases hq : c == '/'
  · rfl
  · have hce : c = '/' := beq_iff_eq.mp hq
    subst hce
    exact absurd h (by decide)

/-- C6: on each of the three supported literal formats the conversion
succeeds and the output matches YYYY-MM-DD; the conversion is idempotent
on its own outputs; the three formats written from the same digits — the
plain date, the date-time, and the US form with padded or unpadded month
and day — all map to the one canonical YYYY-MM-DD string; and any string
matching none of the three formats fails with the unsupported-format
error. -/
theorem convertDateFormat_normalization :
    (∀ s : String, (isYMD s || (isYMDTime s || isMDY s)) = true →
      ∃ e, convertDateFormat s = .ok e ∧ isYMD e = true) ∧
    (∀ s e : String, convertDateFormat s = .ok e → convertDateFormat e = .ok e) ∧
    (∀ y1 y2 y3 y4 m1 m2 d1 d2 hh1 hh2 mi1 mi2 ss1 ss2 : Char,
      y1.isDigit = true → y2.isDigit = true → y3.isDigit = true → y4.isDigit = true →
      m1.isDigit = true → m2.isDigit = true → d1.isDigit = true → d2.isDigit = true →
      hh1.isDigit = true → hh2.isDigit = true → mi1.isDigit = true → mi2.isDigit = true →
      ss1.isDigit = true → ss2.isDigit = true →
      (convertDateFormat (String.mk [y1, y2, y3, y4, '-', m1, m2, '-', d1, d2]) =
        .ok (String.mk [y1, y2, y3, y4, '-', m1, m2, '-', d1, d2]) ∧
       convertDateFormat (String.mk [y1, y2, y3, y4, '-', m1, m2, '-', d1, d2,
          'T', hh1, hh2, ':', mi1, mi2, ':', ss1, ss2]) =
        .ok (String.mk [y1, y2, y3, y4, '-', m1, m2, '-', d1, d2]) ∧
       convertDateFormat (String.mk [m1, m2, '/', d1, d2, '/', y1, y2, y3, y4]) =
        .ok (String.mk [y1, y2, y3, y4, '-', m1, m2, '-', d1, d2]) ∧
       (m1 = '0' → convertDateFormat (String.mk [m2, '/', d1, d2, '/', y1, y2, y3, y4]) =
        .ok (String.mk [y1, y2, y3, y4, '-', m1, m2, '-', d1, d2])) ∧
       (d1 = '0' → convertDateFormat (String.mk [m1, m2, '/', d2, '/', y1, y2, y3, y4]) =
        .ok (String.mk [y1, y2, y3, y4, '-', m1, m2, '-', d1, d2])))) ∧
    (∀ s : String, isYMD s = false → isYMDTime s = false → isMDY s = false →
      convertDateFormat s = .error (.unprocessableContent (unsupportedDateMessage s) none)) := by
  refine ⟨convertDateFormat_total_on_formats, convertDateFormat_idem, ?_,
    convertDateFormat_unsupported⟩
  intro y1 y2 y3 y4 m1 m2 d1 d2 hh1 hh2 mi1 mi2 ss1 ss2
  intro hy1 hy2 hy3 hy4 hm1 hm2 hd1 hd2 hh1d hh2d hmi1 hmi2 hss1 hss2
  refine ⟨?_, ?_, ?_, ?_, ?_⟩
  · have hiso : isYMD (String.mk [y1, y2, y3, y4, '-', m1, m2, '-', d1, d2]) = true := by
      simp [isYMD, datePattern, matchSeq, charIs, hy1, hy2, hy3, hy4, hm1, hm2, hd1, hd2]
    unfold convertDateFormat
    rw [if_pos hiso]
  · have h1 : isYMD (String.mk [y1, y2, y3, y4, '-', m1, m2, '-', d1, d2,
        'T', hh1, hh2, ':', mi1, mi2, ':', ss1, ss2]) = false := by
      simp [isYMD, datePattern, matchSeq, charIs, hy1, hy2, hy3, hy4, hm1, hm2, hd1, hd2]
    have h2 : isYMDTime (String.mk [y1, y2, y3, y4, '-', m1, m2, '-', d1, d2,
        'T', hh1, hh2, ':', mi1, mi2, ':', ss1, ss2]) = true := by
      simp [isYMDTime, dateTimePattern, datePattern, matchSeq, charIs, hy1, hy2, hy3, hy4,
        hm1, hm2, hd1, hd2, hh1d, hh2d, hmi1, hmi2, hss1, hss2]
    unfold convertDateFormat
    rw [h1]
    simp only [Bool.false_eq_true, if_false]
    rw [if_pos h2]
    rfl
  · have h1 : isYMD (String.mk [m1, m2, '/', d1, d2, '/', y1, y2, y3, y4]) = false := by
      simp [isYMD, datePattern, matchSeq, charIs, hm1, hm2]
    have h2 : isYMDTime (String.mk [m1, m2, '/', d1, d2, '/', y1, y2, y3, y4]) = false := by
      simp [isYMDTime, dateTimePattern, datePattern, matchSeq, charIs, hm1, hm2]
    have hsp : jsSplitOnSlash [m1, m2, '/', d1, d2, '/', y1, y2, y3, y4] =
        [[m1, m2], [d1, d2], [y1, y2, y3, y4]] := by
      simp [jsSplitOnSlash, digit_ne_slash _ hm1, digit_ne_slash _ hm2,
        digit_ne_slash _ hd1, digit_ne_slash _ hd2, digit_ne_slash _ hy1,
        digit_ne_slash _ hy2, digit_ne_slash _ hy3, digit_ne_slash _ hy4]
    have hcond : (digitRun1or2 [m1, m2] && digitRun1or2 [d1, d2] &&
        digitRun4 [y1, y2, y3, y4]) = true := by
      simp [digitRun1or2, digitRun4, allDigits, hm1, hm2, hd1, hd2, hy1, hy2, hy3, hy4]
    unfold convertDateFormat
    rw [h1, h2]
    simp only [Bool.false_eq_true, if_false]
    rw [hsp]
    exact if_pos hcond
  · intro hm10
    subst hm10
    have h1 : isYMD (String.mk [m2, '/', d1, d2, '/', y1, y2, y3, y4]) = false := by
      simp [isYMD, datePattern, matchSeq, charIs, hm2]
    have h2 : isYMDTime (String.mk [m2, '/', d1, d2, '/', y1, y2, y3, y4]) = false := by
      simp [isYMDTime, dateTimePattern, datePattern, matchSeq, charIs, hm2]
    have hsp : jsSplitOnSlash [m2, '/', d1, d2, '/', y1, y2, y3, y4] =
        [[m2], [d1, d2], [y1, y2, y3, y4]] := by
      simp [jsSplitOnSlash, digit_ne_slash _ hm2,
        digit_ne_slash _ hd1, digit_ne_slash _ hd2, digit_ne_slash _ hy1,
        digit_ne_slash _ hy2, digit_ne_slash _ hy3, digit_ne_slash _ hy4]
    have hcond : (digitRun1or2 [m2] && digitRun1or2 [d1, d2] &&
        digitRun4 [y1, y2, y3, y4]) = true := by
      simp [digitRun1or2, digitRun4, allDigits, hm2, hd1, hd2, hy1, hy2, hy3, hy4]
    unfold convertDateFormat
    rw [h1, h2]
    simp only [Bool.false_eq_true, if_false]
    rw [hsp]
    exact if_pos hcond
  · intro hd10
    subst hd10
    have h1 : isYMD (String.mk [m1, m2, '/', d2, '/', y1, y2, y3, y4]) = false := by
      simp [isYMD, datePattern, matchSeq, charIs, hm1, hm2]
    have h2 : isYMDTime (String.mk [m1, m2, '/', d2, '/', y1, y2, y3, y4]) = false := by
      simp [isYMDTime, dateTimePattern, datePattern, matchSeq, charIs, hm1, hm2]
    have hsp : jsSplitOnSlash [m1, m2, '/', d2, '/', y1, y2, y3, y4] =
        [[m1, m2], [d2], [y1, y2, y3, y4]] := by
      simp [jsSplitOnSlash, digit_ne_slash _ hm1, digit_ne_slash _ hm2,
        digit_ne_slash _ hd2, digit_ne_slash _ hy1,
        digit_ne_slash _ hy2, digit_ne_slash _ hy3, digit_ne_slash _ hy4]
    have hcond : (digitRun1or2 [m1, m2] && digitRun1or2 [d2] &&
        digitRun4 [y1, y2, y3, y4]) = true := by
      simp [digitRun1or2, digitRun4, allDigits, hm1, hm2, hd2, hy1, hy2, hy3, hy4]
    unfold convertDateFormat
    rw [h1, h2]
    simp only [Bool.false_eq_true, if_false]
    rw [hsp]
    exact if_pos hcond

/-- C6 witness: the theorem discharged on concrete dates covering each
conjunct. -/
theorem convertDateFormat_normalization_witness :
    (isYMD "2024-01-02" || (isYMDTime "2024-01-02" || isMDY "2024-01-02")) = true ∧
    (∃ e, convertDateFormat "2024-01-02" = .ok e ∧ isYMD e = true) ∧
    convertDateFormat "2024-01-02" = .ok "2024-01-02" ∧
    (convertDateFormat "2024-01-02" = .ok "2024-01-02" →
      convertDateFormat "2024-01-02" = .ok "2024-01-02") ∧
    convertDateFormat "2024-01-02T10:11:12" = .ok "2024-01-02" ∧
    convertDateFormat "01/02/2024" = .ok "2024-01-02" ∧
    convertDateFormat "1/02/2024" = .ok "2024-01-02" ∧
    (isYMD "junk" = false ∧ isYMDTime "junk" = false ∧ isMDY "junk" = false) ∧
    convertDateFormat "junk" =
      .error (.unprocessableContent (unsupportedDateMessage "junk") none) := by
  have h3 := convertDateFormat_normalization.2.2.1 '2' '0' '2' '4' '0' '1' '0' '2'
    '1' '0' '1' '1' '1' '2' (by decide) (by decide) (by decide) (by decide)
    (by decide) (by decide) (by decide) (by decide) (by decide) (by decide)
    (by decide) (by decide) (by decide) (by decide)
  refine ⟨by decide, ?_, ?_, ?_, ?_, ?_, ?_, ⟨by decide, by decide, by decide⟩, ?_⟩
  · exact convertDateFormat_normalization.1 "2024-01-02" (by decide)
  · exact h3.1
  · exact fun h => convertDateFormat_normalization.2.1 "2024-01-02" "2024-01-02" h
  · exact h3.2.1
  · exact h3.2.2.1
  · exact h3.2.2.2.1 rfl
  · exact convertDateFormat_normalization.2.2.2 "junk" (by decide) (by decide) (by decide)

/-- C4 witness: the theorem discharged at concrete rejected pairs. -/
theorem rejected_operator_kind_combinations_error_witness :
    jsStartsWith "dimension_country" "dimension_" = true ∧
    jsStartsWith "metric_sessions" "metric_" = true ∧
    (parsePredicateFilters (some (.binary_comparison_operator (.column "dimension_country")
      "_gt" (.scalar (some (.str "US")))))).errors ≠ [] := by
  refine ⟨by decide, by decide, ?_⟩
  exact (rejected_operator_kind_combinations_error "dimension_country" "metric_sessions"
    "example.com" (.str "US") (.str "x") (by decide) (by decide)).1.1

end GA4Connector
